import Mathlib

/-!
Verification development for `src/port-scanner.py` (Shabari-K-S/Port-Scanner),
a threaded TCP connect scanner.

The embedding is shallow.  Network behaviour is abstracted by a function
`net : Nat → ConnectOutcome` giving, for each port, the outcome of the
`connect_ex` attempt made by that port's probe (success, refusal, timeout,
name-resolution failure, or another socket error).  The system service table
consulted by `socket.getservbyport` is abstracted by `svc : Nat → Option
String`, where `none` models the lookup raising.  The global `stop_scan`
flag is written only by the SIGINT handler (it is set, never cleared), so a
probe sees one Boolean value at its entry check and the collection loop in
`main` sees one Boolean value per iteration; we model these observations as
explicit Boolean parameters / streams.
-/

/-- Outcome of the C-level connect attempt made by `sock.connect_ex((target,
port))` at line 69 of `port-scanner.py`, as the surrounding `try/except`
distinguishes them: `connect_ex` returned `0`; `connect_ex` returned a
nonzero errno (refused / unreachable); the attempt timed out
(`socket.timeout`, a subclass of `socket.error`); name resolution failed
(`socket.gaierror`); some other `socket.error` was raised. -/
inductive ConnectOutcome where
  | success
  | refused
  | timeout
  | gaiError
  | sockError
deriving DecidableEq

/-- The tuple `(port, status, service_name)` returned by `scan_port`
(docstring, line 58): the probed port, whether it is open, and the service
name when open. -/
structure PortResult where
  port : Nat
  status : Bool
  service : Option String
deriving DecidableEq

/-- Lines 71–74 of `scan_port`: `service = socket.getservbyport(port)` under
a bare `except` that falls back to the literal `"unknown"`.  `svc` is the
system mapping; `svc port = none` models `getservbyport` raising.  Total by
construction: the lookup never propagates an exception. -/
def resolveService (svc : Nat → Option String) (port : Nat) : String :=
  (svc port).getD "unknown"

/-- `scan_port(target, port, timeout)`, lines 55–87.  `stop_scan` is the
value of the global stop flag observed at the entry check (line 62); `net`
gives the outcome of the connect attempt for each port.  If the flag is set
the function returns `(port, False, None)` before touching the network.
Otherwise: on `connect_ex` returning 0 it returns `(port, True, service)`
(lines 70–75); on a nonzero return it returns `(port, False, None)` (line
76); `socket.gaierror` is caught at line 78 (prints a message) and returns
`(port, False, None)` (line 80); any other `socket.error` — including
`socket.timeout` — is caught at line 81 and returns `(port, False, None)`
(line 83). -/
def scan_port (svc : Nat → Option String) (net : Nat → ConnectOutcome)
    (stop_scan : Bool) (port : Nat) : PortResult :=
  if stop_scan then
    ⟨port, false, none⟩
  else
    match net port with
    | .success => ⟨port, true, some (resolveService svc port)⟩
    | .refused => ⟨port, false, none⟩
    | .timeout => ⟨port, false, none⟩
    | .gaiError => ⟨port, false, none⟩
    | .sockError => ⟨port, false, none⟩

/-- Execution record of one `scan_port` call: its returned tuple, whether
the path taken acquired the socket (`sock = socket.socket(...)`, line 66),
and whether that socket was closed before returning (`finally: sock.close()`,
line 85). -/
structure ProbeExec where
  result : PortResult
  socketAcquired : Bool
  socketClosed : Bool
deriving DecidableEq

/-- `scan_port` with its socket lifecycle made explicit, one record per
exit path.  The early-return path (line 63) runs before the `try`, so no
socket exists.  Every path through the `try` body — successful connect,
nonzero `connect_ex`, `socket.gaierror` handler, `socket.error` handler
(which covers timeouts) — exits through the `finally` clause at line 85,
which closes the socket. -/
def scan_port_exec (svc : Nat → Option String) (net : Nat → ConnectOutcome)
    (stop_scan : Bool) (port : Nat) : ProbeExec :=
  if stop_scan then
    { result := ⟨port, false, none⟩, socketAcquired := false, socketClosed := false }
  else
    match net port with
    | .success =>
        { result := ⟨port, true, some (resolveService svc port)⟩,
          socketAcquired := true, socketClosed := true }
    | .refused =>
        { result := ⟨port, false, none⟩, socketAcquired := true, socketClosed := true }
    | .timeout =>
        { result := ⟨port, false, none⟩, socketAcquired := true, socketClosed := true }
    | .gaiError =>
        { result := ⟨port, false, none⟩, socketAcquired := true, socketClosed := true }
    | .sockError =>
        { result := ⟨port, false, none⟩, socketAcquired := true, socketClosed := true }

/-- Line 109: `ports = range(start_port, end_port + 1)` — the ascending
inclusive range, empty when `end_port < start_port` (Python's `range`, like
truncated subtraction here, yields nothing then). -/
def ports (start_port end_port : Nat) : List Nat :=
  List.range' start_port (end_port + 1 - start_port)

/-- Line 131: `futures = [executor.submit(scan_port, target, port, timeout)
for port in ports]` — one probe submission per port, in ascending order.
`pr p` is the `PortResult` that the future submitted for port `p` will
yield. -/
def futures (pr : Nat → PortResult) (start_port end_port : Nat) : List PortResult :=
  (ports start_port end_port).map pr

/-- The collection loop, lines 134–143: iterate over `futures` in their
submission (ascending-port) order; at each iteration first check
`stop_scan` and break if set; otherwise take the future's result and append
it to `results` iff `result[1]` (the open flag) is true.  `stop i` is the
value of the stop flag observed at iteration `i`; `i` is the iteration
index. -/
def collect (pr : Nat → PortResult) (stop : Nat → Bool) :
    Nat → List Nat → List PortResult
  | _, [] => []
  | i, p :: rest =>
      if stop i then []
      else if (pr p).status then pr p :: collect pr stop (i + 1) rest
      else collect pr stop (i + 1) rest

/-- How many futures the collection loop consumed (`future.result()` calls)
before finishing or breaking. -/
def consumed (stop : Nat → Bool) : Nat → List Nat → Nat
  | _, [] => 0
  | i, _ :: rest => if stop i then 0 else consumed stop (i + 1) rest + 1

/-- The final summary printed in the `finally` block of `main` (lines
149–172): the sorted open results and whether the scan was interrupted
(the `if stop_scan` check at line 170, which also makes the process exit
with status 1). -/
structure ScanReport where
  open_ports : List PortResult
  interrupted : Bool
deriving DecidableEq

/-- Line 163: `sorted(results)`.  `results` holds tuples `(port, True,
service)` with pairwise-distinct ports (one future per port), so Python's
lexicographic tuple order is decided by the first component; we sort by the
port component. -/
def report_open_ports (results : List PortResult) : List PortResult :=
  List.insertionSort (fun a b => a.port ≤ b.port) results

/-- The scan engine of `main` (lines 108–172), excluding argparse and
terminal presentation: enumerate the ports (line 109), submit one probe per
port (line 131), run the collection loop (lines 134–143), then in the
`finally` block sort the collected open results (line 163) and read the
stop flag once more to decide whether the scan was interrupted (line 170).
The flag is only ever set, never cleared, so the final read happens no
earlier than iteration `n` of the loop; we index it by `n`. -/
def main_scan (pr : Nat → PortResult) (stop : Nat → Bool)
    (start_port end_port : Nat) : ScanReport :=
  let ps := ports start_port end_port
  let results := collect pr stop 0 ps
  { open_ports := report_open_ports results,
    interrupted := stop ps.length }

/-- The stop flag is monotone: `stop_scan` starts `False` and the only
write (line 35, in the SIGINT handler) sets it `True`. -/
def StopMono (stop : Nat → Bool) : Prop :=
  ∀ i j, i ≤ j → stop i = true → stop j = true

/-- The open results among the probes for a list of ports, in that order:
what the collection loop appends when it consumes exactly these futures. -/
def openResults (pr : Nat → PortResult) (l : List Nat) : List PortResult :=
  l.filterMap (fun p => if (pr p).status then some (pr p) else none)

/-- A network in which every connect attempt fails with
`socket.gaierror` — an unresolvable target hostname. -/
def gaiNet : Nat → ConnectOutcome := fun _ => ConnectOutcome.gaiError

/-- A stop-flag stream that is never set (no SIGINT arrives). -/
def noStop : Nat → Bool := fun _ => false

/-- A service table with no entries: every `getservbyport` call raises. -/
def noSvc : Nat → Option String := fun _ => none

/-! ### Helper lemmas -/

/-- A probe's result always carries the port it was asked to probe. -/
theorem scan_port_port (svc : Nat → Option String) (net : Nat → ConnectOutcome)
    (b : Bool) (p : Nat) : (scan_port svc net b p).port = p := by
  unfold scan_port
  cases b with
  | true => rfl
  | false => cases net p <;> rfl

/-- The socket-lifecycle record agrees with `scan_port` on the returned
tuple. -/
theorem scan_port_exec_result (svc : Nat → Option String)
    (net : Nat → ConnectOutcome) (b : Bool) (p : Nat) :
    (scan_port_exec svc net b p).result = scan_port svc net b p := by
  unfold scan_port scan_port_exec
  cases b with
  | true => rfl
  | false => cases net p <;> rfl

/-- The ports of the results appended by the collection loop form a
sublist of the iterated port list: the loop visits ports in order and
appends each at most once. -/
theorem collect_map_port_sublist (pr : Nat → PortResult) (stop : Nat → Bool)
    (hpr : ∀ p, (pr p).port = p) (l : List Nat) :
    ∀ i, ((collect pr stop i l).map (fun r => r.port)).Sublist l := by
  induction l with
  | nil => intro i; simp [collect]
  | cons p rest ih =>
      intro i
      by_cases hs : stop i
      · simp [collect, hs]
      · by_cases ho : (pr p).status
        · simpa [collect, hs, ho, hpr p] using (ih (i + 1)).cons₂ p
        · simpa [collect, hs, ho] using (ih (i + 1)).cons p

/-- The enumerated port list is strictly ascending. -/
theorem ports_sorted (s e : Nat) : List.Sorted (· < ·) (ports s e) :=
  List.pairwise_lt_range' s (e + 1 - s)

/-- The ports appended by the collection loop are strictly ascending. -/
theorem collect_ports_sorted (pr : Nat → PortResult) (stop : Nat → Bool)
    (hpr : ∀ p, (pr p).port = p) (s e : Nat) :
    List.Sorted (· < ·)
      ((collect pr stop 0 (ports s e)).map (fun r => r.port)) :=
  List.Pairwise.sublist (collect_map_port_sublist pr stop hpr (ports s e) 0)
    (ports_sorted s e)

/-- Sorting the collected results by port is the identity: they are already
in strictly ascending port order, because the loop awaits futures in their
ascending-port submission order. -/
theorem report_open_ports_collect_eq (pr : Nat → PortResult)
    (stop : Nat → Bool) (hpr : ∀ p, (pr p).port = p) (s e : Nat) :
    report_open_ports (collect pr stop 0 (ports s e))
      = collect pr stop 0 (ports s e) := by
  apply List.Sorted.insertionSort_eq
  have h := collect_ports_sorted pr stop hpr s e
  rw [List.Sorted, List.pairwise_map] at h
  exact h.imp (fun hab => Nat.le_of_lt hab)

/-! ### Claim theorems -/

/-- C5: a probe that observes the cancellation signal set at entry (line 62)
returns `(port, False, None)` immediately — open = false, error = none —
without acquiring a socket, hence without initiating any TCP connection
attempt; its outcome is independent of the network. -/
theorem C5_cancelled_probe_returns_immediately (svc : Nat → Option String)
    (net : Nat → ConnectOutcome) (port : Nat) :
    scan_port_exec svc net true port
      = { result := ⟨port, false, none⟩,
          socketAcquired := false, socketClosed := false } := by
  rfl

/-- C6: a probe whose TCP connect succeeds returns open = true, no error,
and the service name from the system table, falling back to the literal
`"unknown"` for any unmapped port; the lookup is total, so it never
raises. -/
theorem C6_open_port_service (svc : Nat → Option String)
    (net : Nat → ConnectOutcome) (port : Nat)
    (h : net port = ConnectOutcome.success) :
    scan_port svc net false port
        = ⟨port, true, some (resolveService svc port)⟩
      ∧ (∀ q, svc q = none → resolveService svc q = "unknown") := by
  constructor
  · simp [scan_port, h]
  · intro q hq
    unfold resolveService
    rw [hq]
    rfl

/-- Witness for C6 at a concrete input: an unmapped port whose connect
succeeds reports the literal `"unknown"` service. -/
theorem C6_witness :
    scan_port noSvc (fun _ => ConnectOutcome.success) false 9999
      = ⟨9999, true, some "unknown"⟩ := by
  have h := C6_open_port_service noSvc (fun _ => ConnectOutcome.success) 9999 rfl
  rw [h.1]
  rfl

/-- C7: a probe whose connect is refused (nonzero `connect_ex`),
unreachable (another `socket.error`), or timed out returns open = false and
error = none, and a timed-out connect is classified identically to an
explicit refusal: the returned tuples are equal. -/
theorem C7_closed_port_classification (svc : Nat → Option String)
    (net netRefused : Nat → ConnectOutcome) (port : Nat)
    (h : net port = ConnectOutcome.refused ∨ net port = ConnectOutcome.timeout
        ∨ net port = ConnectOutcome.sockError)
    (h2 : netRefused port = ConnectOutcome.refused) :
    scan_port svc net false port = ⟨port, false, none⟩
      ∧ scan_port svc net false port = scan_port svc netRefused false port := by
  have hr : scan_port svc netRefused false port = ⟨port, false, none⟩ := by
    simp [scan_port, h2]
  have hn : scan_port svc net false port = ⟨port, false, none⟩ := by
    rcases h with h | h | h <;> simp [scan_port, h]
  exact ⟨hn, hn.trans hr.symm⟩

/-- Witness for C7 at a concrete input: a timed-out connect on port 81 is
classified exactly as a refused one. -/
theorem C7_witness :
    scan_port noSvc (fun _ => ConnectOutcome.timeout) false 81 = ⟨81, false, none⟩
      ∧ scan_port noSvc (fun _ => ConnectOutcome.timeout) false 81
          = scan_port noSvc (fun _ => ConnectOutcome.refused) false 81 :=
  C7_closed_port_classification noSvc (fun _ => ConnectOutcome.timeout)
    (fun _ => ConnectOutcome.refused) 81 (Or.inr (Or.inl rfl)) rfl

/-- C9: on every exit path of a probe that acquired a socket — successful
connect, closed-port return, timeout, resolution failure, or any other
socket error — the `finally` clause (line 85) closes the socket before the
probe returns its tuple. -/
theorem C9_socket_released (svc : Nat → Option String)
    (net : Nat → ConnectOutcome) (stop_scan : Bool) (port : Nat)
    (h : (scan_port_exec svc net stop_scan port).socketAcquired = true) :
    (scan_port_exec svc net stop_scan port).socketClosed = true
      ∧ (scan_port_exec svc net stop_scan port).result
          = scan_port svc net stop_scan port := by
  refine ⟨?_, scan_port_exec_result svc net stop_scan port⟩
  unfold scan_port_exec at h ⊢
  cases stop_scan with
  | true => simp at h
  | false => cases net port <;> rfl

/-- Witness for C9 at a concrete input: a probe whose connect times out
acquired its socket and closed it before returning. -/
theorem C9_witness :
    (scan_port_exec noSvc (fun _ => ConnectOutcome.timeout) false 22).socketClosed = true
      ∧ (scan_port_exec noSvc (fun _ => ConnectOutcome.timeout) false 22).result
          = scan_port noSvc (fun _ => ConnectOutcome.timeout) false 22 :=
  C9_socket_released noSvc (fun _ => ConnectOutcome.timeout) false 22 rfl

/-- Unfolding of the scan engine into its collection loop and final
stop-flag read. -/
theorem main_scan_eq (pr : Nat → PortResult) (stop : Nat → Bool) (s e : Nat) :
    main_scan pr stop s e
      = { open_ports := report_open_ports (collect pr stop 0 (ports s e)),
          interrupted := stop (ports s e).length } := rfl

/-- If every probe reports closed, the collection loop appends nothing. -/
theorem collect_closed (pr : Nat → PortResult) (stop : Nat → Bool)
    (hpr : ∀ p, (pr p).status = false) (l : List Nat) :
    ∀ i, collect pr stop i l = [] := by
  induction l with
  | nil => intro i; simp [collect]
  | cons p rest ih =>
      intro i
      by_cases hs : stop i <;> simp [collect, hs, hpr p, ih]

/-- If no stop flag is ever observed, the loop consumes every future. -/
theorem consumed_eq_length (stop : Nat → Bool) (hstop : ∀ i, stop i = false)
    (l : List Nat) : ∀ i, consumed stop i l = l.length := by
  induction l with
  | nil => intro i; simp [consumed]
  | cons p rest ih => intro i; simp [consumed, hstop i, ih]

/-- Cancellation at iteration `K` (flag clear before `K`, set from `K` on,
monotone because the handler only sets it): the loop collects exactly the
open results of the first `K - i` futures it had left. -/
theorem collect_cancel (pr : Nat → PortResult) (stop : Nat → Bool) (K : Nat)
    (hmono : StopMono stop) (hbefore : ∀ i, i < K → stop i = false)
    (hK : stop K = true) (l : List Nat) :
    ∀ i, collect pr stop i l = openResults pr (l.take (K - i)) := by
  induction l with
  | nil => intro i; simp [collect, openResults]
  | cons p rest ih =>
      intro i
      by_cases hiK : i < K
      · have hsi : stop i = false := hbefore i hiK
        have htake : K - i = (K - (i + 1)) + 1 := by omega
        rw [htake]
        by_cases ho : (pr p).status <;>
          simp [collect, hsi, ho, openResults, List.filterMap_cons, ih (i + 1)]
      · have hsi : stop i = true := hmono K i (by omega) hK
        have hz : K - i = 0 := by omega
        simp [collect, hsi, hz, openResults]

/-- C3: the open-ports sequence of the final report is sorted strictly
ascending by port number, for every scan — whatever the network outcomes,
the per-probe stop-flag observations, and the loop's stop-flag stream
(interruption included). -/
theorem C3_open_ports_sorted (svc : Nat → Option String)
    (net : Nat → ConnectOutcome) (probeStop stop : Nat → Bool) (s e : Nat) :
    List.Sorted (· < ·)
      ((main_scan (fun p => scan_port svc net (probeStop p) p) stop s e).open_ports.map
        (fun r => r.port)) := by
  have hpr : ∀ p, ((fun q => scan_port svc net (probeStop q) q) p).port = p :=
    fun p => scan_port_port svc net (probeStop p) p
  have h := main_scan_eq (fun q => scan_port svc net (probeStop q) q) stop s e
  rw [show (main_scan (fun q => scan_port svc net (probeStop q) q) stop s e).open_ports
      = report_open_ports
          (collect (fun q => scan_port svc net (probeStop q) q) stop 0 (ports s e))
    from congrArg ScanReport.open_ports h]
  rw [report_open_ports_collect_eq _ stop hpr s e]
  exact collect_ports_sorted _ stop hpr s e

/-- C10: because the loop awaits futures in their ascending-port submission
order, the aggregated results list is already in ascending port order, so
the `sorted(results)` at line 163 is the identity on it: the report's
open-ports are exactly the raw collected list. -/
theorem C10_sort_is_identity (svc : Nat → Option String)
    (net : Nat → ConnectOutcome) (probeStop stop : Nat → Bool) (s e : Nat) :
    (main_scan (fun p => scan_port svc net (probeStop p) p) stop s e).open_ports
        = collect (fun p => scan_port svc net (probeStop p) p) stop 0 (ports s e)
      ∧ report_open_ports
          (collect (fun p => scan_port svc net (probeStop p) p) stop 0 (ports s e))
        = collect (fun p => scan_port svc net (probeStop p) p) stop 0 (ports s e) := by
  have hpr : ∀ p, ((fun q => scan_port svc net (probeStop q) q) p).port = p :=
    fun p => scan_port_port svc net (probeStop p) p
  have h := report_open_ports_collect_eq _ stop hpr s e
  have h0 := main_scan_eq (fun q => scan_port svc net (probeStop q) q) stop s e
  exact ⟨(congrArg ScanReport.open_ports h0).trans h, h⟩

/-- C8: a valid uninterrupted scan over `[s, e]` submits exactly one future
per port — `e - s + 1` futures in all, each port exactly once, the
membership being exactly the inclusive interval — and the loop consumes
exactly that many results; no port is ever probed twice. -/
theorem C8_one_probe_per_port (pr : Nat → PortResult) (stop : Nat → Bool)
    (s e : Nat) (hse : s ≤ e) (hstop : ∀ i, stop i = false) :
    (futures pr s e).length = e - s + 1
      ∧ (ports s e).Nodup
      ∧ (∀ p, p ∈ ports s e ↔ s ≤ p ∧ p ≤ e)
      ∧ consumed stop 0 (ports s e) = e - s + 1 := by
  have hlen : (ports s e).length = e - s + 1 := by
    unfold ports
    rw [List.length_range']
    omega
  refine ⟨?_, ?_, ?_, ?_⟩
  · unfold futures
    rw [List.length_map]
    exact hlen
  · exact List.nodup_range' s (e + 1 - s)
  · intro p
    unfold ports
    rw [List.mem_range'_1]
    omega
  · rw [consumed_eq_length stop hstop (ports s e) 0]
    exact hlen

/-- Witness for C8 at a concrete input: the scan of ports 20–23 submits 4
futures, enumerates each port once, and consumes 4 results. -/
theorem C8_witness :
    (futures (fun p => ⟨p, false, none⟩) 20 23).length = 4
      ∧ (ports 20 23).Nodup
      ∧ (22 ∈ ports 20 23 ↔ 20 ≤ 22 ∧ 22 ≤ 23)
      ∧ consumed noStop 0 (ports 20 23) = 4 := by
  have h := C8_one_probe_per_port (fun p => ⟨p, false, none⟩) noStop 20 23
    (by omega) (fun _ => rfl)
  exact ⟨h.1, h.2.1, h.2.2.1 22, h.2.2.2⟩

/-- C4: when the scan is cancelled at iteration `K` — the flag, monotone
because the SIGINT handler only ever sets it, is clear before `K` and set
from `K` on — the final report contains exactly the open results collected
in the first `K` iterations (sorted), no more and no fewer, and is marked
interrupted; the engine is a total function, so no crash occurs. -/
theorem C4_cancellation_preserves_results (pr : Nat → PortResult)
    (stop : Nat → Bool) (s e K : Nat) (hmono : StopMono stop)
    (hbefore : ∀ i, i < K → stop i = false) (hK : stop K = true)
    (hKn : K ≤ (ports s e).length) :
    main_scan pr stop s e
      = { open_ports := report_open_ports (openResults pr ((ports s e).take K)),
          interrupted := true } := by
  have h1 := collect_cancel pr stop K hmono hbefore hK (ports s e) 0
  have h2 : stop (ports s e).length = true := hmono K (ports s e).length hKn hK
  rw [main_scan_eq, h1, Nat.sub_zero, h2]

/-- A stop-flag stream set by an interrupt arriving at iteration 3. -/
def stopAt3 : Nat → Bool := fun i => decide (3 ≤ i)

/-- Witness for C4 at a concrete input: scanning ports 1–10 with opens at
ports 2 and 9 and cancellation at iteration 3 yields a report holding
exactly the one open collected before the interrupt, marked interrupted. -/
theorem C4_witness :
    main_scan (fun p => ⟨p, decide (p = 2 ∨ p = 9), none⟩) stopAt3 1 10
      = { open_ports := [⟨2, true, none⟩], interrupted := true } := by
  have hmono : StopMono stopAt3 := by
    intro i j hij hi
    simp only [stopAt3, decide_eq_true_eq] at hi ⊢
    omega
  have hbefore : ∀ i, i < 3 → stopAt3 i = false := by
    intro i hi
    simp only [stopAt3, decide_eq_false_iff_not]
    omega
  have h := C4_cancellation_preserves_results
    (fun p => ⟨p, decide (p = 2 ∨ p = 9), none⟩) stopAt3 1 10 3
    hmono hbefore (by decide) (by decide)
  rw [h]
  decide

/-- C1 counterexample: with an unresolvable hostname (every probe's connect
raises `socket.gaierror`), the probe for port 80 does acquire a socket —
the port is probed — and returns the ordinary closed tuple `(80, False,
None)` carrying no error; the scan of ports 1–5 runs to completion and
produces an ordinary, non-interrupted ScanReport instead of surfacing a
distinguished failure. -/
theorem C1_counterexample :
    (scan_port_exec noSvc gaiNet false 80).socketAcquired = true
      ∧ scan_port noSvc gaiNet false 80 = ⟨80, false, none⟩
      ∧ main_scan (fun p => scan_port noSvc gaiNet false p) noStop 1 5
          = { open_ports := [], interrupted := false } := by
  refine ⟨rfl, rfl, ?_⟩
  decide

/-- C1 amended: host-resolution failure is handled per probe, not
scan-fatally — `scan_port` catches `socket.gaierror` (line 78), prints a
message, and returns the ordinary closed tuple `(port, False, None)`; the
coordinator treats these like closed ports, keeps consuming futures, and
produces a normal ScanReport with an empty open-ports list, surfacing no
distinguished failure to the caller. -/
theorem C1_amended_resolution_failure_not_fatal (svc : Nat → Option String)
    (probeStop stop : Nat → Bool) (s e : Nat) :
    (∀ p b, scan_port svc gaiNet b p = ⟨p, false, none⟩)
      ∧ (main_scan (fun p => scan_port svc gaiNet (probeStop p) p) stop s e).open_ports
          = [] := by
  constructor
  · intro p b
    cases b <;> simp [scan_port, gaiNet]
  · have hpr : ∀ p, (scan_port svc gaiNet (probeStop p) p).status = false := by
      intro p
      cases hb : probeStop p <;> simp [scan_port, gaiNet, hb]
    have h := main_scan_eq (fun p => scan_port svc gaiNet (probeStop p) p) stop s e
    rw [congrArg ScanReport.open_ports h,
      collect_closed _ stop hpr (ports s e) 0]
    rfl

/-- C2 counterexample: the code performs no range validation.  With
start = 100, end = 50 the enumerated range is empty and the scan returns an
ordinary empty, non-interrupted report — no `InvalidRangeError` (no error
of any kind) occurs; and ranges violating 1 ≤ start and end ≤ 65535 are
enumerated for probing rather than rejected: port 0 is in the range 0–5 and
port 70000 is in the range 1–70000. -/
theorem C2_counterexample :
    ports 100 50 = []
      ∧ main_scan (fun p => scan_port noSvc gaiNet false p) noStop 100 50
          = { open_ports := [], interrupted := false }
      ∧ (0 : Nat) ∈ ports 0 5
      ∧ (70000 : Nat) ∈ ports 1 70000 := by
  refine ⟨rfl, by decide, by decide, ?_⟩
  unfold ports
  rw [List.mem_range'_1]
  omega

/-- C2 amended: no validation of the port range is performed and no
`InvalidRangeError` exists in the code.  When start > end, Python's
`range(start, end + 1)` is empty, so no port is probed and the scan
produces an ordinary empty report whose interrupted flag is just the stop
flag's value; out-of-bounds ranges (start < 1 or end > 65535) are probed
rather than rejected. -/
theorem C2_amended_no_validation (pr : Nat → PortResult) (stop : Nat → Bool)
    (s e : Nat) (h : e < s) :
    ports s e = []
      ∧ main_scan pr stop s e = { open_ports := [], interrupted := stop 0 } := by
  have hp : ports s e = [] := by
    unfold ports
    have hz : e + 1 - s = 0 := by omega
    rw [hz]
    rfl
  refine ⟨hp, ?_⟩
  rw [main_scan_eq, hp]
  rfl

/-- Witness for the amended C2 at the concrete input start = 100, end = 50:
the scan returns the empty non-interrupted report. -/
theorem C2_witness :
    main_scan (fun p => ⟨p, true, none⟩) noStop 100 50
      = { open_ports := [], interrupted := false } := by
  have h := C2_amended_no_validation (fun p => ⟨p, true, none⟩) noStop 100 50
    (by omega)
  rw [h.2]
  rfl
